import Mathlib

/-!
Shallow embedding of the click attribution and fraud-screening redirect
pipeline of `mock_server_g.py`: the `/v1/click` handler (parameter
validation, bot detection, campaign filters, record construction, redirect
composition, response-mode selection) and the admin `/v1/clicks` listing
(parameter validation, filtering, stable time-descending sort, pagination),
plus the mock seed records installed by `reset_storage`.

Conventions of the embedding:
* Query parameters of a request are a `List (String × String)` in the order
  they appear in the query string (Flask's `request.args` multi-map);
  `getArg` is `args.get(name)` (first value), `getArgList` is
  `args.getlist(name)`, and iteration over `request.args` visits each
  distinct key once in first-occurrence order (`argKeys`).
* Python `int(s)` on a decimal string is `pyInt` (optional sign followed by
  ASCII digits; anything else raises, i.e. `none`).
* Python floats are embedded as rationals; `random.uniform(0.0, b)` is
  `b * r` where `r` is the outcome of `random.random()`, a rational in
  `[0, 1)` supplied as part of the request context.
* Nondeterministic inputs of the handler (resolved client IP, generated
  UUID, current time, random draw) are fields of `ClickContext`.
-/

/-- `leadsWith hay needle`: `needle` occurs at the start of `hay`. -/
def leadsWith : List Char → List Char → Bool
  | _, [] => true
  | [], _ :: _ => false
  | a :: as, b :: bs => a == b && leadsWith as bs

/-- `hasSubstr hay needle`: `needle` occurs contiguously somewhere in `hay`
(Python's `needle in hay` on strings). -/
def hasSubstr : List Char → List Char → Bool
  | [], needle => needle.isEmpty
  | a :: as, needle => leadsWith (a :: as) needle || hasSubstr as needle

/-- Python `pat in s` for strings. -/
def containsSubstring (s pat : String) : Bool :=
  hasSubstr s.data pat.data

/-- Python `s.lower()` (ASCII case folding, which covers every pattern the
server compares against). -/
def strLower (s : String) : String :=
  ⟨s.data.map Char.toLower⟩

/-- The fixed bot/crawler signature list of `detect_bot`. -/
def bot_patterns : List String :=
  ["bot", "crawler", "spider", "scraper", "headless", "selenium",
   "chrome-lighthouse", "googlebot", "bingbot", "yahoo", "baidu",
   "yandex", "duckduckbot", "facebookexternalhit", "twitterbot",
   "linkedinbot", "whatsapp", "telegrambot"]

/-- `detect_bot(user_agent, referrer)`: `(is_bot, reason)`.  A missing user
agent is the empty string (the handler reads the header with default `''`);
a missing referrer is `none`. -/
def detect_bot (user_agent : String) (referrer : Option String) :
    Bool × Option String :=
  if user_agent = "" then (true, some "missing_user_agent")
  else
    let ua_lower := strLower user_agent
    if bot_patterns.any (fun p => containsSubstring ua_lower p) then
      (true, some "bot_pattern_detected")
    else
      match referrer with
      | some r => if 1000 < r.length then (true, some "suspicious_referrer_length")
                  else (false, none)
      | none => (false, none)

/-- The campaign filter configuration consumed by `apply_campaign_filters`.
`none` stands for the empty/falsy dict `{}` (the handler always passes
`{}`, on which the function returns immediately). -/
structure CampaignFilterSet where
  ip_blacklist : List String
  allowed_countries : List String
  blocked_user_agents : List String
deriving DecidableEq

/-- `apply_campaign_filters(ip, ua, referrer, filters)`: `(filtered, reason)`.
The country list is part of the shape but never evaluated (the source skips
it). -/
def apply_campaign_filters (ip ua : String) (referrer : Option String)
    (filters : Option CampaignFilterSet) : Bool × Option String :=
  match filters with
  | none => (false, none)
  | some f =>
    if ip ∈ f.ip_blacklist then (true, some "ip_blacklisted")
    else if ua ≠ "" &&
        f.blocked_user_agents.any
          (fun b => containsSubstring (strLower ua) (strLower b)) then
      (true, some "user_agent_blocked")
    else (false, none)

/-- Digit-string to `Nat`; `none` unless the list is a non-empty run of
ASCII digits. -/
def digitsToNat (ds : List Char) : Option Nat :=
  if ds ≠ [] && ds.all Char.isDigit then
    some (ds.foldl (fun n c => 10 * n + (c.toNat - 48)) 0)
  else none

/-- Python `int(s)` on a decimal string: optional sign, then digits;
any other shape raises `ValueError` (`none`). -/
def pyInt (s : String) : Option Int :=
  match s.data with
  | '-' :: rest => (digitsToNat rest).map (fun n => -(n : Int))
  | '+' :: rest => (digitsToNat rest).map (fun n => (n : Int))
  | ds => (digitsToNat ds).map (fun n => (n : Int))

/-- `request.args.get(name)`: first value for the key, if any. -/
def getArg (args : List (String × String)) (name : String) : Option String :=
  (args.find? (fun p => p.1 == name)).map (fun p => p.2)

/-- `request.args.getlist(name)`: all values for the key, in order. -/
def getArgList (args : List (String × String)) (name : String) : List String :=
  (args.filter (fun p => p.1 == name)).map (fun p => p.2)

/-- First-occurrence deduplication (helper for `argKeys`). -/
def dedupFirst (seen : List String) : List String → List String
  | [] => []
  | k :: ks =>
    if k ∈ seen then dedupFirst seen ks
    else k :: dedupFirst (k :: seen) ks

/-- Iteration over `request.args` (a multi-dict): each distinct key once,
in first-occurrence order. -/
def argKeys (args : List (String × String)) : List String :=
  dedupFirst [] (args.map (fun p => p.1))

/-- A field-scoped validation error, as collected by the handler. -/
structure ValidationError where
  field : String
  message : String
deriving DecidableEq

/-- The `cid` block of the click handler: empty string is an explicit error
and then `int('')` raises, appending a second error; a parse failure or a
value below 1 is an error; absent means the default applies and no error. -/
def cidErrors (args : List (String × String)) : List ValidationError :=
  match getArg args "cid" with
  | none => []
  | some s =>
    (if s = "" then [⟨"cid", "Campaign ID cannot be empty"⟩] else []) ++
    (match pyInt s with
     | some n => if n < 1 then [⟨"cid", "Campaign ID must be >= 1"⟩] else []
     | none => [⟨"cid", "Invalid Campaign ID"⟩])

/-- The campaign id the handler proceeds with (only consulted on the
error-free path, where the parse necessarily succeeded). -/
def cidValue (args : List (String × String)) : Int :=
  match getArg args "cid" with
  | none => 123
  | some s => (pyInt s).getD 0

/-- The `landing_page_id` block (same shape as `cid`: the empty-string check
falls through into the parse). -/
def landingPageErrors (args : List (String × String)) : List ValidationError :=
  match getArg args "landing_page_id" with
  | none => []
  | some s =>
    (if s = "" then [⟨"landing_page_id", "landing_page_id cannot be empty"⟩] else []) ++
    (match pyInt s with
     | some n => if n < 1 then [⟨"landing_page_id", "landing_page_id must be >= 1"⟩] else []
     | none => [⟨"landing_page_id", "Invalid landing_page_id"⟩])

def landingPageValue (args : List (String × String)) : Option Int :=
  (getArg args "landing_page_id").bind pyInt

/-- The `campaign_offer_id` block: the empty check guards the parse
(`else` branch), and the parsed value is bounded by the 32-bit maximum. -/
def campaignOfferErrors (args : List (String × String)) : List ValidationError :=
  match getArg args "campaign_offer_id" with
  | none => []
  | some s =>
    if s = "" then [⟨"campaign_offer_id", "campaign_offer_id cannot be empty"⟩]
    else
      match pyInt s with
      | some n =>
        if n < 1 then [⟨"campaign_offer_id", "campaign_offer_id must be >= 1"⟩]
        else if 2147483647 < n then
          [⟨"campaign_offer_id", "campaign_offer_id exceeds maximum value"⟩]
        else []
      | none => [⟨"campaign_offer_id", "Invalid campaign_offer_id"⟩]

/-- The `traffic_source_id` block (empty check guards the parse). -/
def trafficSourceErrors (args : List (String × String)) : List ValidationError :=
  match getArg args "traffic_source_id" with
  | none => []
  | some s =>
    if s = "" then [⟨"traffic_source_id", "Traffic source ID cannot be empty"⟩]
    else
      match pyInt s with
      | some n => if n < 1 then [⟨"traffic_source_id", "Traffic source ID must be >= 1"⟩] else []
      | none => [⟨"traffic_source_id", "Traffic source ID must be an integer"⟩]

def trafficSourceValue (args : List (String × String)) : Option Int :=
  (getArg args "traffic_source_id").bind pyInt

/-- The sub-parameters checked against the tracking-token pattern. -/
def sub_params : List String :=
  ["sub1", "sub2", "sub3", "sub4", "sub5",
   "aff_sub", "aff_sub2", "aff_sub3", "aff_sub4", "aff_sub5"]

/-- One character of the class `[a-zA-Z0-9._-]`. -/
def patternChar (c : Char) : Bool :=
  c.isAlpha || c.isDigit || c == '.' || c == '_' || c == '-'

/-- The regex `^[a-zA-Z0-9._-]*$` applied to the whole value. -/
def matchesTrackingPattern (s : String) : Bool :=
  s.data.all patternChar

/-- Errors for `sub1..sub5` and `aff_sub..aff_sub5`, in the fixed order of
`sub_params`.  (The source message quotes the pattern; the quotes are the
escaped apostrophes.) -/
def subParamErrors (args : List (String × String)) : List ValidationError :=
  (sub_params.map (fun p =>
    match getArg args p with
    | some v =>
      if matchesTrackingPattern v then []
      else [⟨p, p ++ " must match pattern \x27^[a-zA-Z0-9._-]*$\x27"⟩]
    | none => [])).flatten

def clickIdErrors (args : List (String × String)) : List ValidationError :=
  match getArg args "click_id" with
  | some v =>
    if matchesTrackingPattern v then []
    else [⟨"click_id", "click_id must match pattern \x27^[a-zA-Z0-9._-]*$\x27"⟩]
  | none => []

/-- The recognized query-parameter names of `/v1/click`. -/
def allowed_params : List String :=
  ["cid", "sub1", "sub2", "sub3", "sub4", "sub5",
   "click_id", "aff_sub", "aff_sub2", "aff_sub3", "aff_sub4", "aff_sub5",
   "landing_page_id", "campaign_offer_id", "traffic_source_id",
   "bot_user_agent", "test_mode"]

/-- One "Unknown query parameter" error per distinct unrecognized key, in
first-occurrence order. -/
def unknownParamErrors (args : List (String × String)) : List ValidationError :=
  ((argKeys args).filter (fun k => !(allowed_params.contains k))).map
    (fun k => ⟨k, "Unknown query parameter: " ++ k⟩)

/-- The full error list collected by the click handler, in source order:
all fields are checked before any side effect. -/
def validateClickParams (args : List (String × String)) : List ValidationError :=
  cidErrors args ++ landingPageErrors args ++ campaignOfferErrors args ++
  trafficSourceErrors args ++ subParamErrors args ++ clickIdErrors args ++
  unknownParamErrors args

/-- `details[field] = message` on a dict kept as an ordered association
list: replace in place if the key exists, else append. -/
def dictInsert (d : List (String × String)) (k v : String) :
    List (String × String) :=
  if d.any (fun p => p.1 == k) then
    d.map (fun p => if p.1 == k then (p.1, v) else p)
  else d ++ [(k, v)]

/-- `convert_validation_errors_to_object`: fold the error list into a
field-to-message dict (a later error on the same field overwrites). -/
def convert_validation_errors_to_object (errs : List ValidationError) :
    List (String × String) :=
  errs.foldl (fun d e => dictInsert d e.field e.message) []

/-- Lookup in the details dict. -/
def detailsLookup (d : List (String × String)) (k : String) : Option String :=
  (d.find? (fun p => p.1 == k)).map (fun p => p.2)

/-- One Python value that is either a string or an int (the record field
`campaignOfferId` holds the raw request string on the pipeline path but an
int in the seeded mock records). -/
inductive StrOrInt where
  | str (s : String)
  | int (n : Int)
deriving DecidableEq

/-- The ClickRecord as built by the pipeline and stored in the ledger. -/
structure ClickRecord where
  id : String
  cid : Int
  ip : String
  ua : String
  ref : Option String
  isValid : Nat
  ts : Int
  sub1 : Option String
  sub2 : Option String
  sub3 : Option String
  sub4 : Option String
  sub5 : Option String
  clickId : Option String
  affSub : Option String
  affSub2 : Option String
  affSub3 : Option String
  affSub4 : Option String
  affSub5 : Option String
  fraudScore : ℚ
  fraudReason : Option String
  landingPageId : Option Int
  campaignOfferId : Option StrOrInt
  trafficSourceId : Option Int
  conversionType : Option String
deriving DecidableEq

/-- Per-key value group of a parsed query string. -/
def qsAddPair (d : List (String × List String)) (k v : String) :
    List (String × List String) :=
  if d.any (fun p => p.1 == k) then
    d.map (fun p => if p.1 == k then (p.1, p.2 ++ [v]) else p)
  else d ++ [(k, [v])]

/-- `urllib.parse.parse_qs` with the default `keep_blank_values=False`:
pairs whose value is the empty string are dropped; the rest are grouped per
key in first-occurrence order. -/
def parse_qs (pairs : List (String × String)) : List (String × List String) :=
  pairs.foldl (fun d p => if p.2 = "" then d else qsAddPair d p.1 p.2) []

/-- Python `dict.update`: keys of `e` replace existing entries of `d` in
place; new keys are appended in the order of `e`. -/
def dictUpdate (d e : List (String × List String)) :
    List (String × List String) :=
  e.foldl (fun acc p =>
    if acc.any (fun q => q.1 == p.1) then
      acc.map (fun q => if q.1 == p.1 then p else q)
    else acc ++ [p]) d

/-- `urllib.parse.urlencode(d, doseq=True)`: one `key=value` pair per value,
in dict order. -/
def urlencode_doseq (d : List (String × List String)) :
    List (String × String) :=
  (d.map (fun p => p.2.map (fun v => (p.1, v)))).flatten

/-- The redirect-URL merge of the click handler: the selected destination
URL's query and the inbound query string are each run through `parse_qs`,
the inbound dict is `update`d over the destination dict (inbound wins per
key), and the result is re-serialized. -/
def mergeQueryParams (destQuery inbound : List (String × String)) :
    List (String × String) :=
  urlencode_doseq (dictUpdate (parse_qs destQuery) (parse_qs inbound))

/-- A redirect target, kept structured: the scheme/host/path part and the
query as ordered pairs. -/
structure RedirectUrl where
  base : String
  query : List (String × String)
deriving DecidableEq

def white_url_base : String := "http://127.0.0.1:8000/mock-safe-page"
def black_url_base : String := "http://127.0.0.1:8000/mock-offer-page"

/-- The nondeterministic inputs of one `/v1/click` invocation, resolved:
client IP (`get_client_ip`), the two headers, presence of the
`X-Schemathesis-Test` header (with a truthy value), the generated UUID, the
current time, and the `random.random()` outcome feeding `random.uniform`. -/
structure ClickContext where
  clientIp : String
  userAgent : String
  referer : Option String
  schemathesisHeader : Bool
  freshId : String
  now : Int
  rand : ℚ

/-- The four response shapes `/v1/click` can produce. -/
inductive ClickResponse where
  | validationError (status : Nat) (details : List (String × String))
  | htmlPage (clickId : String) (isValid : Nat) (redirectUrl : RedirectUrl)
  | schemathesisJson (toUrl : RedirectUrl) (record : ClickRecord)
  | redirectResponse (status : Nat) (location : RedirectUrl)
deriving DecidableEq

/-- The verdict of the click pipeline after bot detection and campaign
filters: `(is_valid, fraud_reason)`.  The forced flag and the detector are
combined by `bot_reason or "forced_bot_detection"`; the (always empty)
campaign filter set is consulted only when the verdict so far is valid. -/
def clickVerdict (args : List (String × String)) (ctx : ClickContext) :
    Nat × Option String :=
  let force_bot := getArg args "bot_user_agent" == some "1"
  let bd := detect_bot ctx.userAgent ctx.referer
  let base : Nat × Option String :=
    if force_bot || bd.1 then (0, some (bd.2.getD "forced_bot_detection"))
    else (1, none)
  if base.1 == 1 then
    let cf := apply_campaign_filters ctx.clientIp ctx.userAgent ctx.referer none
    if cf.1 then (0, cf.2) else base
  else base

/-- The fraud score draw: `random.uniform(0.0, 0.9)` when invalid,
`random.uniform(0.0, 0.1)` when valid, with `ctx.rand` the `random.random()`
outcome. -/
def fraudScoreDraw (is_valid : Nat) (rand : ℚ) : ℚ :=
  if is_valid == 0 then (9 / 10 : ℚ) * rand else (1 / 10 : ℚ) * rand

/-- The ClickRecord built by the handler on the validated path. -/
def buildClickRecord (args : List (String × String)) (ctx : ClickContext) :
    ClickRecord :=
  let v := clickVerdict args ctx
  { id := ctx.freshId
    cid := cidValue args
    ip := ctx.clientIp
    ua := ctx.userAgent
    ref := ctx.referer
    isValid := v.1
    ts := ctx.now
    sub1 := getArg args "sub1"
    sub2 := getArg args "sub2"
    sub3 := getArg args "sub3"
    sub4 := getArg args "sub4"
    sub5 := getArg args "sub5"
    clickId := getArg args "click_id"
    affSub := getArg args "aff_sub"
    affSub2 := getArg args "aff_sub2"
    affSub3 := getArg args "aff_sub3"
    affSub4 := getArg args "aff_sub4"
    affSub5 := getArg args "aff_sub5"
    fraudScore := fraudScoreDraw v.1 ctx.rand
    fraudReason := v.2
    landingPageId := landingPageValue args
    campaignOfferId := (getArg args "campaign_offer_id").map StrOrInt.str
    trafficSourceId := trafficSourceValue args
    conversionType := none }

/-- The composed redirect target.  The selected destination URL carries the
query `click_id=<freshId>`; when the inbound query string is non-empty it is
merged in (`parse_qs` both sides, inbound wins per key). -/
def composedRedirect (args : List (String × String)) (ctx : ClickContext)
    (is_valid : Nat) : RedirectUrl :=
  let base := if is_valid ≠ 0 then black_url_base else white_url_base
  let destQuery : List (String × String) := [("click_id", ctx.freshId)]
  ⟨base, if args = [] then destQuery else mergeQueryParams destQuery args⟩

/-- `/v1/click`: full handler over one request.  Returns the response and
the ledger after the call; validation failures return 400 with the error
details object and leave the ledger untouched. -/
def click_handler (args : List (String × String)) (ctx : ClickContext)
    (clicks : List ClickRecord) : ClickResponse × List ClickRecord :=
  let errors := validateClickParams args
  if errors ≠ [] then
    (.validationError 400 (convert_validation_errors_to_object errors), clicks)
  else
    let record := buildClickRecord args ctx
    let clicks2 := clicks ++ [record]
    let url := composedRedirect args ctx record.isValid
    if getArg args "test_mode" == some "1" then
      (.htmlPage ctx.freshId record.isValid url, clicks2)
    else if ctx.schemathesisHeader then
      (.schemathesisJson url record, clicks2)
    else
      (.redirectResponse 302 url, clicks2)

/-- The recognized query-parameter names of `/v1/clicks`. -/
def allowed_list_params : List String :=
  ["cid", "limit", "offset", "sub1", "sub2", "is_valid"]

/-- The per-key loop of `list_clicks`: the first key that is unknown, or
that carries more than one value, yields a 422 message. -/
def firstParamError (args : List (String × String)) :
    List String → Option String
  | [] => none
  | k :: ks =>
    if ¬ allowed_list_params.contains k then
      some ("Unknown query parameter: " ++ k)
    else if (getArgList args k).length ≠ 1 then
      some ("Parameter " ++ k ++ " must be a single value, not an array")
    else firstParamError args ks

/-- The validated query bundle of `/v1/clicks`. -/
structure ListQuery where
  cidFilter : Option Int
  limit : Int
  offset : Int
  sub1Filter : Option String
  sub2Filter : Option String
  isValidFilter : Option Int
deriving DecidableEq

/-- The `cid` filter parse of `list_clicks` (a `ValueError` from `int` is
caught by the surrounding handler as "Invalid parameter format"). -/
def parseCidFilter (args : List (String × String)) :
    Except String (Option Int) :=
  match getArg args "cid" with
  | none => .ok none
  | some s =>
    if s = "" then .error "Campaign ID cannot be empty"
    else
      match pyInt s with
      | none => .error "Invalid parameter format"
      | some n => if n < 1 then .error "Campaign ID must be >= 1" else .ok (some n)

/-- The `limit` parse of `list_clicks` (default `'50'`, bounds 1..1000). -/
def parseLimit (args : List (String × String)) : Except String Int :=
  match pyInt ((getArg args "limit").getD "50") with
  | none => .error "Invalid parameter format"
  | some n =>
    if n < 1 ∨ 1000 < n then .error "Limit must be between 1 and 1000"
    else .ok n

/-- The `offset` parse of `list_clicks` (default `'0'`, must be ≥ 0). -/
def parseOffset (args : List (String × String)) : Except String Int :=
  match pyInt ((getArg args "offset").getD "0") with
  | none => .error "Invalid parameter format"
  | some n => if n < 0 then .error "Offset must be >= 0" else .ok n

/-- The `is_valid` filter parse of `list_clicks` (must be 0 or 1). -/
def parseIsValidFilter (args : List (String × String)) :
    Except String (Option Int) :=
  match getArg args "is_valid" with
  | none => .ok none
  | some s =>
    match pyInt s with
    | none => .error "Invalid parameter format"
    | some n =>
      if n = 0 ∨ n = 1 then .ok (some n) else .error "is_valid must be 0 or 1"

/-- Full parameter validation of `/v1/clicks`, in source order: the
allowed/duplicate key loop, then `cid`, `limit`, `offset`, the sub filters
and `is_valid`; the first failure wins. -/
def parseListQuery (args : List (String × String)) : Except String ListQuery :=
  match firstParamError args (argKeys args) with
  | some msg => .error msg
  | none =>
  match parseCidFilter args with
  | .error m => .error m
  | .ok cidFilter =>
  match parseLimit args with
  | .error m => .error m
  | .ok lim =>
  match parseOffset args with
  | .error m => .error m
  | .ok off =>
  match parseIsValidFilter args with
  | .error m => .error m
  | .ok ivf =>
    .ok ⟨cidFilter, lim, off, getArg args "sub1", getArg args "sub2", ivf⟩

/-- The exact-match filter cascade of `list_clicks`. -/
def filterClicks (q : ListQuery) (clicks : List ClickRecord) :
    List ClickRecord :=
  let c1 := match q.cidFilter with
    | none => clicks
    | some n => clicks.filter (fun c => c.cid == n)
  let c2 := match q.sub1Filter with
    | none => c1
    | some s => c1.filter (fun c => c.sub1 == some s)
  let c3 := match q.sub2Filter with
    | none => c2
    | some s => c2.filter (fun c => c.sub2 == some s)
  match q.isValidFilter with
  | none => c3
  | some v => c3.filter (fun c => (c.isValid : Int) == v)

/-- The comparison of `sorted(clicks, key=ts, reverse=True)`: `a` may come
before `b` when `a.ts ≥ b.ts`.  Python's sort is stable, as is `mergeSort`,
and a stable sort is determined by its comparison, so the two agree. -/
def tsDescLE (a b : ClickRecord) : Bool :=
  b.ts ≤ a.ts

/-- The two response shapes of `/v1/clicks` (every validation failure in
the source carries status 422). -/
inductive ListResponse where
  | errorResponse (status : Nat) (message : String)
  | ok (clicks : List ClickRecord) (total : Nat) (limit : Int) (offset : Int)
deriving DecidableEq

/-- `/v1/clicks` after the auth gate: validate parameters, filter, sort by
timestamp descending (stable), paginate with `clicks[offset:offset+limit]`,
and report the pre-pagination total. -/
def list_clicks (args : List (String × String)) (clicks : List ClickRecord) :
    ListResponse :=
  match parseListQuery args with
  | .error msg => .errorResponse 422 msg
  | .ok q =>
    let sortedClicks := (filterClicks q clicks).mergeSort tsDescLE
    let total := sortedClicks.length
    let page := (sortedClicks.drop q.offset.toNat).take q.limit.toNat
    .ok page total q.limit q.offset

def ListResponse.isError422 : ListResponse → Bool
  | .errorResponse 422 _ => true
  | _ => false

/-- The click data carried by a response: a rejected request has none. -/
def ListResponse.clickData : ListResponse → List ClickRecord
  | .ok cs _ _ _ => cs
  | .errorResponse _ _ => []

/-- First seeded mock record of `reset_storage`. -/
def mockClick1 : ClickRecord :=
  { id := "123e4567-e89b-12d3-a456-426614174000"
    cid := 123
    ip := "192.168.1.100"
    ua := "Mozilla/5.0 (Windows NT 10.0; Win64; x64) AppleWebKit/537.36"
    ref := some "https://facebook.com/ad/123"
    isValid := 1
    ts := 1640995200
    sub1 := some "fb_ad_15"
    sub2 := some "facebook"
    sub3 := some "adset_12"
    sub4 := some "video1"
    sub5 := some "lookalike78"
    clickId := some "USERCLICK123"
    affSub := some "aff_sub_123"
    affSub2 := none
    affSub3 := none
    affSub4 := none
    affSub5 := none
    fraudScore := 0
    fraudReason := none
    landingPageId := some 456
    campaignOfferId := some (StrOrInt.int 789)
    trafficSourceId := some 101
    conversionType := some "sale" }

/-- Second seeded mock record of `reset_storage`: marked valid while
carrying `fraudScore = 0.1` and a non-null `conversionType`. -/
def mockClick2 : ClickRecord :=
  { id := "456e7890-e89b-12d3-a456-426614174001"
    cid := 456
    ip := "10.0.0.50"
    ua := "Mozilla/5.0 (iPhone; CPU iPhone OS 14_0 like Mac OS X)"
    ref := some "https://google.com/search?q=test"
    isValid := 1
    ts := 1641081600
    sub1 := some "google_search"
    sub2 := some "google"
    sub3 := some "brand_campaign"
    sub4 := some "text_ad"
    sub5 := some "keyword_123"
    clickId := some "GOOGLE_CLICK_456"
    affSub := some "network_a"
    affSub2 := some "sub_a1"
    affSub3 := none
    affSub4 := none
    affSub5 := none
    fraudScore := 1 / 10
    fraudReason := none
    landingPageId := some 457
    campaignOfferId := some (StrOrInt.int 790)
    trafficSourceId := some 102
    conversionType := some "lead" }

/-- The Click Ledger at process start and after every `reset_storage`. -/
def initialClicks : List ClickRecord :=
  [mockClick1, mockClick2]

def ClickResponse.isHtml : ClickResponse → Bool
  | .htmlPage .. => true
  | _ => false

def ClickResponse.isSchemathesisJson : ClickResponse → Bool
  | .schemathesisJson .. => true
  | _ => false

def ClickResponse.isRedirect : ClickResponse → Bool
  | .redirectResponse .. => true
  | _ => false

/-- The ledger after one `/v1/click` call: unchanged on a validation
failure, extended by exactly the built record otherwise. -/
theorem click_handler_snd (args : List (String × String)) (ctx : ClickContext)
    (clicks : List ClickRecord) :
    (click_handler args ctx clicks).2 =
      if validateClickParams args = [] then
        clicks ++ [buildClickRecord args ctx]
      else clicks := by
  unfold click_handler
  by_cases h : validateClickParams args = []
  · simp only [h, ite_true, ne_eq, not_true_eq_false, if_false]
    split
    · rfl
    · split <;> rfl
  · simp [h]

/-- A record appended by the handler is the built record (and validation
necessarily passed). -/
theorem record_of_append (args : List (String × String)) (ctx : ClickContext)
    (clicks : List ClickRecord) (r : ClickRecord)
    (hr : (click_handler args ctx clicks).2 = clicks ++ [r]) :
    validateClickParams args = [] ∧ r = buildClickRecord args ctx := by
  rw [click_handler_snd] at hr
  by_cases h : validateClickParams args = []
  · rw [if_pos h] at hr
    have := List.append_cancel_left hr
    simp only [List.cons.injEq] at this
    exact ⟨h, this.1.symm⟩
  · rw [if_neg h] at hr
    simp at hr

/-- Bounds of the fraud score draw in the built record, for any outcome of
the random generator in `[0, 1)`. -/
theorem build_fraudScore_bounds (args : List (String × String))
    (ctx : ClickContext) (h0 : 0 ≤ ctx.rand) (h1 : ctx.rand < 1) :
    ((buildClickRecord args ctx).isValid = 1 →
      0 ≤ (buildClickRecord args ctx).fraudScore ∧
      (buildClickRecord args ctx).fraudScore < 1 / 10) ∧
    ((buildClickRecord args ctx).isValid = 0 →
      0 ≤ (buildClickRecord args ctx).fraudScore ∧
      (buildClickRecord args ctx).fraudScore < 9 / 10) := by
  unfold buildClickRecord
  simp only [fraudScoreDraw]
  constructor
  · intro hv
    simp only [hv] at *
    simp only [show ((1 : Nat) == 0) = false by rfl, if_false] at *
    constructor
    · positivity
    · calc (1 / 10 : ℚ) * ctx.rand < (1 / 10 : ℚ) * 1 := by
            exact mul_lt_mul_of_pos_left h1 (by norm_num)
        _ = 1 / 10 := mul_one _
  · intro hv
    simp only [hv] at *
    simp only [show ((0 : Nat) == 0) = true by rfl, if_true] at *
    constructor
    · positivity
    · calc (9 / 10 : ℚ) * ctx.rand < (9 / 10 : ℚ) * 1 := by
            exact mul_lt_mul_of_pos_left h1 (by norm_num)
        _ = 9 / 10 := mul_one _

/-- C1 counterexample: a request with `bot_user_agent=1` whose user agent
also matches a detection rule (`Googlebot/2.1`) is recorded with
`fraudReason = "bot_pattern_detected"`, not `"forced_bot_detection"`: the
detected rule's reason wins, contradicting the claim that the forced reason
wins. -/
theorem c1_counterexample :
    ((click_handler [("bot_user_agent", "1")]
        ⟨"1.2.3.4", "Googlebot/2.1", none, false, "id0", 100, 0⟩ []).2.map
      (fun r => (r.isValid, r.fraudReason)))
      = [(0, some "bot_pattern_detected")] ∧
    (some "bot_pattern_detected" : Option String) ≠ some "forced_bot_detection" := by
  constructor
  · rfl
  · decide

/-- C1 (amended): with `bot_user_agent=1` on a request that passes
validation, the recorded verdict is invalid, and the recorded reason is the
detection rule's reason when one fires, `"forced_bot_detection"` only when
no rule matches (`fraud_reason = bot_reason or "forced_bot_detection"`). -/
theorem c1_amended_forced_flag (args : List (String × String))
    (ctx : ClickContext) (clicks : List ClickRecord)
    (hv : validateClickParams args = [])
    (hf : getArg args "bot_user_agent" = some "1") :
    (click_handler args ctx clicks).2 =
      clicks ++ [buildClickRecord args ctx] ∧
    (buildClickRecord args ctx).isValid = 0 ∧
    (buildClickRecord args ctx).fraudReason =
      some ((detect_bot ctx.userAgent ctx.referer).2.getD
        "forced_bot_detection") := by
  refine ⟨by rw [click_handler_snd, if_pos hv], ?_, ?_⟩ <;>
    simp [buildClickRecord, clickVerdict, hf]

/-- C1 witness: `bot_user_agent=1` with a clean browser user agent passes
validation and records the forced reason. -/
theorem c1_amended_witness :
    (click_handler [("bot_user_agent", "1")]
        ⟨"5.6.7.8", "Mozilla/5.0 (X11; Linux x86_64) Firefox/115.0", none,
          false, "w1", 7, 0⟩ []).2 =
      [] ++ [buildClickRecord [("bot_user_agent", "1")]
        ⟨"5.6.7.8", "Mozilla/5.0 (X11; Linux x86_64) Firefox/115.0", none,
          false, "w1", 7, 0⟩] ∧
    (buildClickRecord [("bot_user_agent", "1")]
        ⟨"5.6.7.8", "Mozilla/5.0 (X11; Linux x86_64) Firefox/115.0", none,
          false, "w1", 7, 0⟩).isValid = 0 ∧
    (buildClickRecord [("bot_user_agent", "1")]
        ⟨"5.6.7.8", "Mozilla/5.0 (X11; Linux x86_64) Firefox/115.0", none,
          false, "w1", 7, 0⟩).fraudReason =
      some ((detect_bot "Mozilla/5.0 (X11; Linux x86_64) Firefox/115.0"
        none).2.getD "forced_bot_detection") :=
  c1_amended_forced_flag _ _ _ (by rfl) (by rfl)

/-- C2 counterexample: a validated request carrying both `test_mode=1` and
the internal-test header gets the HTML test page, not the structured JSON
description: the test-mode flag is checked before the header, contradicting
the claimed precedence. -/
theorem c2_counterexample :
    ((click_handler [("test_mode", "1")]
        ⟨"1.2.3.4", "Mozilla/5.0 (X11; Linux x86_64) Firefox/115.0", none,
          true, "id0", 100, 0⟩ []).1.isHtml = true) ∧
    ((click_handler [("test_mode", "1")]
        ⟨"1.2.3.4", "Mozilla/5.0 (X11; Linux x86_64) Firefox/115.0", none,
          true, "id0", 100, 0⟩ []).1.isSchemathesisJson = false) := by
  constructor
  · rfl
  · rfl

/-- C2 (amended): every validated request gets exactly one of the three
shapes, with precedence test-mode flag > internal-test header > default
302 redirect (in particular, with both the flag and the header set the
response is the HTML page). -/
theorem c2_amended_response_precedence (args : List (String × String))
    (ctx : ClickContext) (clicks : List ClickRecord)
    (hv : validateClickParams args = []) :
    ((getArg args "test_mode" = some "1") →
      (click_handler args ctx clicks).1.isHtml = true) ∧
    (getArg args "test_mode" ≠ some "1" → ctx.schemathesisHeader = true →
      (click_handler args ctx clicks).1.isSchemathesisJson = true) ∧
    (getArg args "test_mode" ≠ some "1" → ctx.schemathesisHeader = false →
      (click_handler args ctx clicks).1.isRedirect = true) ∧
    ([(click_handler args ctx clicks).1.isHtml,
      (click_handler args ctx clicks).1.isSchemathesisJson,
      (click_handler args ctx clicks).1.isRedirect].count true = 1) := by
  unfold click_handler
  simp only [hv, ne_eq, not_true_eq_false, if_false, ite_not]
  refine ⟨?_, ?_, ?_, ?_⟩
  · intro ht
    simp [ht]
    rfl
  · intro ht hs
    have : (getArg args "test_mode" == some "1") = false := by
      simpa using ht
    simp [this, hs]
    rfl
  · intro ht hs
    have : (getArg args "test_mode" == some "1") = false := by
      simpa using ht
    simp [this, hs]
    rfl
  · by_cases ht : (getArg args "test_mode" == some "1") = true
    · simp [ht, ClickResponse.isHtml, ClickResponse.isSchemathesisJson,
        ClickResponse.isRedirect]
    · have ht' : (getArg args "test_mode" == some "1") = false := by
        simpa using ht
      by_cases hs : ctx.schemathesisHeader = true
      · simp [ht', hs, ClickResponse.isHtml, ClickResponse.isSchemathesisJson,
          ClickResponse.isRedirect]
      · have hs' : ctx.schemathesisHeader = false := by simpa using hs
        simp [ht', hs', ClickResponse.isHtml, ClickResponse.isSchemathesisJson,
          ClickResponse.isRedirect]

/-- C2 witness: a validated request with neither mode set is redirected. -/
theorem c2_amended_witness :
    ((getArg [("cid", "5")] "test_mode" = some "1") →
      (click_handler [("cid", "5")]
        ⟨"1.2.3.4", "Mozilla/5.0", none, false, "w2", 8, 0⟩ []).1.isHtml = true) ∧
    (getArg [("cid", "5")] "test_mode" ≠ some "1" → false = true →
      (click_handler [("cid", "5")]
        ⟨"1.2.3.4", "Mozilla/5.0", none, false, "w2", 8, 0⟩
          []).1.isSchemathesisJson = true) ∧
    (getArg [("cid", "5")] "test_mode" ≠ some "1" → false = false →
      (click_handler [("cid", "5")]
        ⟨"1.2.3.4", "Mozilla/5.0", none, false, "w2", 8, 0⟩
          []).1.isRedirect = true) ∧
    ([(click_handler [("cid", "5")]
        ⟨"1.2.3.4", "Mozilla/5.0", none, false, "w2", 8, 0⟩ []).1.isHtml,
      (click_handler [("cid", "5")]
        ⟨"1.2.3.4", "Mozilla/5.0", none, false, "w2", 8, 0⟩
          []).1.isSchemathesisJson,
      (click_handler [("cid", "5")]
        ⟨"1.2.3.4", "Mozilla/5.0", none, false, "w2", 8, 0⟩
          []).1.isRedirect].count true = 1) :=
  c2_amended_response_precedence [("cid", "5")]
    ⟨"1.2.3.4", "Mozilla/5.0", none, false, "w2", 8, 0⟩ [] (by rfl)

/-- C3 counterexample: one run of the pipeline producing a valid then an
invalid record in the same ledger, where the valid record's fraud score
(1/20, from draw 1/2) is larger than the invalid record's (1/100, from draw
1/90): valid and invalid scores are not drawn from disjoint ranges. -/
theorem c3_counterexample :
    ((click_handler []
        ⟨"9.9.9.9", "Mozilla/5.0 (X11; Linux x86_64) Firefox/115.0", none,
          false, "a", 100, (1 : ℚ) / 2⟩ []).2 =
      [buildClickRecord []
        ⟨"9.9.9.9", "Mozilla/5.0 (X11; Linux x86_64) Firefox/115.0", none,
          false, "a", 100, (1 : ℚ) / 2⟩]) ∧
    ((click_handler []
        ⟨"9.9.9.9", "TestBot", none, false, "b", 101, (1 : ℚ) / 90⟩
        (click_handler []
          ⟨"9.9.9.9", "Mozilla/5.0 (X11; Linux x86_64) Firefox/115.0", none,
            false, "a", 100, (1 : ℚ) / 2⟩ []).2).2 =
      [buildClickRecord []
        ⟨"9.9.9.9", "Mozilla/5.0 (X11; Linux x86_64) Firefox/115.0", none,
          false, "a", 100, (1 : ℚ) / 2⟩,
       buildClickRecord []
        ⟨"9.9.9.9", "TestBot", none, false, "b", 101, (1 : ℚ) / 90⟩]) ∧
    (buildClickRecord []
      ⟨"9.9.9.9", "Mozilla/5.0 (X11; Linux x86_64) Firefox/115.0", none,
        false, "a", 100, (1 : ℚ) / 2⟩).isValid = 1 ∧
    (buildClickRecord []
      ⟨"9.9.9.9", "TestBot", none, false, "b", 101, (1 : ℚ) / 90⟩).isValid
      = 0 ∧
    ¬ ((buildClickRecord []
          ⟨"9.9.9.9", "Mozilla/5.0 (X11; Linux x86_64) Firefox/115.0", none,
            false, "a", 100, (1 : ℚ) / 2⟩).fraudScore <
        (buildClickRecord []
          ⟨"9.9.9.9", "TestBot", none, false, "b", 101,
            (1 : ℚ) / 90⟩).fraudScore) := by
  refine ⟨rfl, rfl, rfl, rfl, ?_⟩
  have e1 : (buildClickRecord []
      ⟨"9.9.9.9", "Mozilla/5.0 (X11; Linux x86_64) Firefox/115.0", none,
        false, "a", 100, (1 : ℚ) / 2⟩).fraudScore
      = (1 / 10 : ℚ) * ((1 : ℚ) / 2) := rfl
  have e2 : (buildClickRecord []
      ⟨"9.9.9.9", "TestBot", none, false, "b", 101,
        (1 : ℚ) / 90⟩).fraudScore = (9 / 10 : ℚ) * ((1 : ℚ) / 90) := rfl
  rw [e1, e2]
  norm_num

/-- C3 (amended): for any two records appended by the pipeline in the same
run, a valid record's score lies in the low range [0, 0.1) and an invalid
record's score in the wide range [0, 0.9); the two ranges overlap, so no
cross-record ordering holds between them. -/
theorem c3_amended_score_ranges (a1 a2 : List (String × String))
    (ctx1 ctx2 : ClickContext) (l1 l2 : List ClickRecord)
    (r1 r2 : ClickRecord)
    (h10 : 0 ≤ ctx1.rand) (h11 : ctx1.rand < 1)
    (h20 : 0 ≤ ctx2.rand) (h21 : ctx2.rand < 1)
    (hr1 : (click_handler a1 ctx1 l1).2 = l1 ++ [r1])
    (hr2 : (click_handler a2 ctx2 l2).2 = l2 ++ [r2])
    (hv1 : r1.isValid = 1) (hv2 : r2.isValid = 0) :
    0 ≤ r1.fraudScore ∧ r1.fraudScore < 1 / 10 ∧
    0 ≤ r2.fraudScore ∧ r2.fraudScore < 9 / 10 := by
  obtain ⟨-, hb1⟩ := record_of_append a1 ctx1 l1 r1 hr1
  obtain ⟨-, hb2⟩ := record_of_append a2 ctx2 l2 r2 hr2
  subst hb1; subst hb2
  obtain ⟨hvalid1, -⟩ := build_fraudScore_bounds a1 ctx1 h10 h11
  obtain ⟨-, hinvalid2⟩ := build_fraudScore_bounds a2 ctx2 h20 h21
  obtain ⟨p1, p2⟩ := hvalid1 hv1
  obtain ⟨p3, p4⟩ := hinvalid2 hv2
  exact ⟨p1, p2, p3, p4⟩

/-- C3 witness: the two-run instance with draws 0 and 0. -/
theorem c3_amended_witness :
    0 ≤ (buildClickRecord []
        ⟨"9.9.9.9", "Mozilla/5.0 (X11) Firefox", none, false, "a", 100,
          0⟩).fraudScore ∧
    (buildClickRecord []
        ⟨"9.9.9.9", "Mozilla/5.0 (X11) Firefox", none, false, "a", 100,
          0⟩).fraudScore < 1 / 10 ∧
    0 ≤ (buildClickRecord []
        ⟨"9.9.9.9", "TestBot", none, false, "b", 101, 0⟩).fraudScore ∧
    (buildClickRecord []
        ⟨"9.9.9.9", "TestBot", none, false, "b", 101, 0⟩).fraudScore
      < 9 / 10 :=
  c3_amended_score_ranges [] []
    ⟨"9.9.9.9", "Mozilla/5.0 (X11) Firefox", none, false, "a", 100, 0⟩
    ⟨"9.9.9.9", "TestBot", none, false, "b", 101, 0⟩ [] [] _ _
    (by norm_num) (by norm_num) (by norm_num) (by norm_num)
    (by rfl) (by rfl) (by rfl) (by rfl)

/-- C4: for every record appended by the pipeline, with the random draw in
[0, 1): a valid verdict's fraud score is below 0.1 and an invalid verdict's
lies in [0, 0.9), for any number of repeated draws and any draw outcome. -/
theorem c4_fraud_score_bounds (args : List (String × String))
    (ctx : ClickContext) (clicks : List ClickRecord) (r : ClickRecord)
    (h0 : 0 ≤ ctx.rand) (h1 : ctx.rand < 1)
    (hr : (click_handler args ctx clicks).2 = clicks ++ [r]) :
    (r.isValid = 1 → r.fraudScore < 1 / 10) ∧
    (r.isValid = 0 → 0 ≤ r.fraudScore ∧ r.fraudScore < 9 / 10) := by
  obtain ⟨-, hb⟩ := record_of_append args ctx clicks r hr
  subst hb
  obtain ⟨hvalid, hinvalid⟩ := build_fraudScore_bounds args ctx h0 h1
  exact ⟨fun hv => (hvalid hv).2, hinvalid⟩

/-- C4 witness: a concrete bot request with draw 1/3 appends an invalid
record whose score meets the bounds. -/
theorem c4_fraud_score_bounds_witness :
    ((buildClickRecord [("bot_user_agent", "1")]
        ⟨"4.4.4.4", "Mozilla/5.0", none, false, "w4", 9, (1 : ℚ) / 3⟩).isValid
        = 1 →
      (buildClickRecord [("bot_user_agent", "1")]
        ⟨"4.4.4.4", "Mozilla/5.0", none, false, "w4", 9,
          (1 : ℚ) / 3⟩).fraudScore < 1 / 10) ∧
    ((buildClickRecord [("bot_user_agent", "1")]
        ⟨"4.4.4.4", "Mozilla/5.0", none, false, "w4", 9, (1 : ℚ) / 3⟩).isValid
        = 0 →
      0 ≤ (buildClickRecord [("bot_user_agent", "1")]
        ⟨"4.4.4.4", "Mozilla/5.0", none, false, "w4", 9,
          (1 : ℚ) / 3⟩).fraudScore ∧
      (buildClickRecord [("bot_user_agent", "1")]
        ⟨"4.4.4.4", "Mozilla/5.0", none, false, "w4", 9,
          (1 : ℚ) / 3⟩).fraudScore < 9 / 10) :=
  c4_fraud_score_bounds [("bot_user_agent", "1")]
    ⟨"4.4.4.4", "Mozilla/5.0", none, false, "w4", 9, (1 : ℚ) / 3⟩ [] _
    (by norm_num) (by norm_num) (by rfl)

theorem convert_append_single (es : List ValidationError)
    (e : ValidationError) :
    convert_validation_errors_to_object (es ++ [e]) =
      dictInsert (convert_validation_errors_to_object es) e.field e.message := by
  simp [convert_validation_errors_to_object, List.foldl_append]

theorem detailsLookup_mapReplace (d : List (String × String)) (k v : String)
    (h : d.any (fun p => p.1 == k) = true) :
    detailsLookup
      (d.map (fun p => if p.1 == k then (p.1, v) else p)) k = some v := by
  induction d with
  | nil => simp at h
  | cons p ds ih =>
    by_cases hp : p.1 = k
    · simp [detailsLookup, List.find?, hp]
    · have hp' : (p.1 == k) = false := by simpa using hp
      simp only [List.any_cons, hp', Bool.false_or] at h
      simpa [detailsLookup, List.find?, hp'] using ih h

theorem detailsLookup_append_single (d : List (String × String))
    (k v : String) (h : d.any (fun p => p.1 == k) = false) :
    detailsLookup (d ++ [(k, v)]) k = some v := by
  induction d with
  | nil => simp [detailsLookup, List.find?]
  | cons p ds ih =>
    simp only [List.any_cons, Bool.or_eq_false_iff] at h
    simpa [detailsLookup, List.find?, h.1] using ih h.2

theorem detailsLookup_dictInsert_self (d : List (String × String))
    (k v : String) :
    detailsLookup (dictInsert d k v) k = some v := by
  unfold dictInsert
  cases ha : d.any (fun p => p.1 == k) with
  | true =>
    rw [if_pos rfl]
    exact detailsLookup_mapReplace d k v ha
  | false =>
    rw [if_neg (by simp)]
    exact detailsLookup_append_single d k v ha

theorem detailsLookup_mapReplace_ne (d : List (String × String))
    (k v k2 : String) (h : k2 ≠ k) :
    detailsLookup (d.map (fun p => if p.1 == k then (p.1, v) else p)) k2 =
      detailsLookup d k2 := by
  unfold detailsLookup
  rw [List.find?_map]
  have hcomp : ((fun p : String × String => p.1 == k2) ∘
      (fun p : String × String => if p.1 == k then (p.1, v) else p)) =
      (fun p : String × String => p.1 == k2) := by
    funext p
    simp only [Function.comp_apply]
    by_cases hp : (p.1 == k) = true
    · rw [if_pos hp]
    · rw [if_neg hp]
  rw [hcomp]
  cases hf : d.find? (fun p => p.1 == k2) with
  | none => rfl
  | some q =>
    have hq1 : q.1 = k2 := by simpa using List.find?_some hf
    have hqk : (q.1 == k) ≠ true := by
      rw [hq1]
      exact fun hc => h (by simpa using hc)
    simp only [Option.map_some']
    rw [if_neg hqk]

theorem detailsLookup_append_single_ne (d : List (String × String))
    (k v k2 : String) (h : k2 ≠ k) :
    detailsLookup (d ++ [(k, v)]) k2 = detailsLookup d k2 := by
  unfold detailsLookup
  rw [List.find?_append]
  have hone : List.find? (fun p => p.1 == k2) [(k, v)] = none := by
    have : ((k, v).1 == k2) = false := by
      rw [beq_eq_false_iff_ne]
      exact fun hc => h hc.symm
    simp [List.find?, this]
  rw [hone]
  cases d.find? (fun p => p.1 == k2) <;> rfl

theorem detailsLookup_dictInsert_ne (d : List (String × String))
    (k v k2 : String) (h : k2 ≠ k) :
    detailsLookup (dictInsert d k v) k2 = detailsLookup d k2 := by
  unfold dictInsert
  cases ha : d.any (fun p => p.1 == k) with
  | true =>
    rw [if_pos rfl]
    exact detailsLookup_mapReplace_ne d k v k2 h
  | false =>
    rw [if_neg (by simp)]
    exact detailsLookup_append_single_ne d k v k2 h

/-- The lookup in the converted details object is the message of the last
collected error on that field. -/
theorem detailsLookup_convert (errs : List ValidationError) (k : String) :
    detailsLookup (convert_validation_errors_to_object errs) k =
      (errs.reverse.find? (fun e => e.field == k)).map
        (fun e => e.message) := by
  induction errs using List.reverseRecOn with
  | nil => rfl
  | append_singleton es e ih =>
    rw [convert_append_single, List.reverse_append]
    by_cases hk : e.field = k
    · subst hk
      simp [detailsLookup_dictInsert_self, List.find?]
    · have hk2 : k ≠ e.field := fun hc => hk hc.symm
      have hk' : (e.field == k) = false := by simpa using hk
      rw [detailsLookup_dictInsert_ne _ _ _ _ hk2, ih]
      simp [List.find?, hk']

theorem find_beq_self_of_mem (l : List String) (p : String) (hp : p ∈ l) :
    l.find? (fun k => k == p) = some p := by
  induction l with
  | nil => cases hp
  | cons a l ih =>
    by_cases ha : a = p
    · subst ha
      exact List.find?_cons_of_pos _ (by simp)
    · have hp' : p ∈ l := by
        cases hp with
        | head => exact absurd rfl ha
        | tail _ h => exact h
      rw [List.find?_cons_of_neg _ (by simpa using ha)]
      exact ih hp'

/-- In the collected error list of a request carrying an unrecognized
parameter `p`, the last error on field `p` is the unknown-parameter
message. -/
theorem validate_find_unknown (args : List (String × String)) (p : String)
    (hmem : p ∈ argKeys args) (hun : p ∉ allowed_params) :
    (validateClickParams args).reverse.find? (fun e => e.field == p) =
      some ⟨p, "Unknown query parameter: " ++ p⟩ := by
  unfold validateClickParams
  rw [List.reverse_append, List.find?_append]
  have hfind : (unknownParamErrors args).reverse.find?
      (fun e => e.field == p) =
      some ⟨p, "Unknown query parameter: " ++ p⟩ := by
    unfold unknownParamErrors
    rw [← List.map_reverse, List.find?_map]
    have hmem2 : p ∈ ((argKeys args).filter
        (fun k => !(allowed_params.contains k))).reverse := by
      rw [List.mem_reverse, List.mem_filter]
      refine ⟨hmem, ?_⟩
      have hc : allowed_params.contains p = false := by
        simp only [List.contains_eq_any_beq]
        simp only [List.any_eq_false]
        intro x hx
        intro hb
        exact hun (by simpa [eq_comm] using (beq_iff_eq.mp hb) ▸ hx)
      simpa [hc] using hun
    rw [show ((fun e : ValidationError => e.field == p) ∘
        (fun k => (⟨k, "Unknown query parameter: " ++ k⟩ : ValidationError)))
        = (fun k => k == p) from rfl]
    rw [find_beq_self_of_mem _ p hmem2]
    rfl
  rw [hfind, Option.or_some]

/-- C5: a tracking request with at least one validation error gets the 400
VALIDATION_ERROR response carrying the per-field details object, the ledger
is left unchanged, and for every unrecognized parameter name `p` of the
request the details map `p` to `"Unknown query parameter: p"`. -/
theorem c5_validation_short_circuits (args : List (String × String))
    (ctx : ClickContext) (clicks : List ClickRecord)
    (h : validateClickParams args ≠ []) :
    (click_handler args ctx clicks).1 =
      ClickResponse.validationError 400
        (convert_validation_errors_to_object (validateClickParams args)) ∧
    (click_handler args ctx clicks).2 = clicks ∧
    (∀ p, p ∈ argKeys args → p ∉ allowed_params →
      detailsLookup
        (convert_validation_errors_to_object (validateClickParams args)) p =
        some ("Unknown query parameter: " ++ p)) := by
  refine ⟨?_, ?_, ?_⟩
  · simp only [click_handler]
    rw [if_pos h]
  · rw [click_handler_snd, if_neg h]
  · intro p hmem hun
    rw [detailsLookup_convert, validate_find_unknown args p hmem hun]
    rfl

/-- C5 witness: `GET /v1/click?unknownparam=x` is rejected with the
expected details entry and does not touch the seeded ledger. -/
theorem c5_validation_short_circuits_witness :
    (click_handler [("unknownparam", "x")]
        ⟨"1.2.3.4", "Mozilla/5.0", none, false, "w5", 11, 0⟩
        initialClicks).1 =
      ClickResponse.validationError 400
        (convert_validation_errors_to_object
          (validateClickParams [("unknownparam", "x")])) ∧
    (click_handler [("unknownparam", "x")]
        ⟨"1.2.3.4", "Mozilla/5.0", none, false, "w5", 11, 0⟩
        initialClicks).2 = initialClicks ∧
    detailsLookup
      (convert_validation_errors_to_object
        (validateClickParams [("unknownparam", "x")])) "unknownparam" =
      some "Unknown query parameter: unknownparam" := by
  have h := c5_validation_short_circuits [("unknownparam", "x")]
    ⟨"1.2.3.4", "Mozilla/5.0", none, false, "w5", 11, 0⟩ initialClicks
    (by decide)
  exact ⟨h.1, h.2.1, h.2.2 "unknownparam" (by decide) (by decide)⟩

theorem mergeSort_pair {α : Type} (le : α → α → Bool) (a b : α) :
    [a, b].mergeSort le = if le a b then [a, b] else [b, a] := by
  rw [List.mergeSort]
  have hs : List.splitAt.go [a, b] [a, b] 1 [] = ([a], [b]) := rfl
  by_cases h : le a b
  · simp [List.splitInTwo, List.splitAt, hs, List.merge, h]
  · simp [List.splitInTwo, List.splitAt, hs, List.merge, h]

/-- C7: `cid` handling of the Parameter Validator: absent means default 123
with no error; a value parsing to an integer ≥ 1 passes and is used; a
parse failure or a value below 1 yields a field-scoped error on `cid`; the
empty string yields an explicit `cid` error (rather than the default); and
any `cid` error fails the whole validation. -/
theorem c7_cid_validation (args : List (String × String)) :
    (getArg args "cid" = none → cidErrors args = [] ∧ cidValue args = 123) ∧
    (∀ s n, getArg args "cid" = some s → pyInt s = some n → 1 ≤ n →
      cidErrors args = [] ∧ cidValue args = n) ∧
    (∀ s, getArg args "cid" = some s → pyInt s = none →
      ∃ e ∈ cidErrors args, e.field = "cid") ∧
    (∀ s n, getArg args "cid" = some s → pyInt s = some n → n < 1 →
      ∃ e ∈ cidErrors args, e.field = "cid") ∧
    (getArg args "cid" = some "" →
      (⟨"cid", "Campaign ID cannot be empty"⟩ : ValidationError) ∈
        cidErrors args) ∧
    (cidErrors args ≠ [] → validateClickParams args ≠ []) := by
  refine ⟨?_, ?_, ?_, ?_, ?_, ?_⟩
  · intro h
    simp [cidErrors, cidValue, h]
  · intro s n hs hp hn
    have hse : s ≠ "" := by
      intro he
      rw [he] at hp
      exact Option.noConfusion hp
    constructor
    · simp [cidErrors, hs, hse, hp, Int.not_lt.mpr hn]
    · simp [cidValue, hs, hp]
  · intro s hs hp
    refine ⟨⟨"cid", "Invalid Campaign ID"⟩, ?_, rfl⟩
    simp [cidErrors, hs, hp]
  · intro s n hs hp hn
    refine ⟨⟨"cid", "Campaign ID must be >= 1"⟩, ?_, rfl⟩
    simp [cidErrors, hs, hp, hn]
  · intro hs
    simp [cidErrors, hs]
  · intro hne hval
    simp only [validateClickParams, List.append_eq_nil] at hval
    exact hne hval.1.1.1.1.1.1

/-- C7 witness: the default, success, parse-failure, range-failure and
empty-string cases at concrete requests. -/
theorem c7_cid_validation_witness :
    (cidErrors [] = [] ∧ cidValue [] = 123) ∧
    (cidErrors [("cid", "7")] = [] ∧ cidValue [("cid", "7")] = 7) ∧
    (∃ e ∈ cidErrors [("cid", "abc")], e.field = "cid") ∧
    (∃ e ∈ cidErrors [("cid", "0")], e.field = "cid") ∧
    ((⟨"cid", "Campaign ID cannot be empty"⟩ : ValidationError) ∈
      cidErrors [("cid", "")]) ∧
    validateClickParams [("cid", "")] ≠ [] :=
  ⟨(c7_cid_validation []).1 rfl,
   (c7_cid_validation [("cid", "7")]).2.1 "7" 7 rfl (by decide) (by decide),
   (c7_cid_validation [("cid", "abc")]).2.2.1 "abc" rfl (by decide),
   (c7_cid_validation [("cid", "0")]).2.2.2.1 "0" 0 rfl (by decide) (by decide),
   (c7_cid_validation [("cid", "")]).2.2.2.2.1 rfl,
   (c7_cid_validation [("cid", "")]).2.2.2.2.2 (by decide)⟩

/-- C9: at process start (and after every `reset_storage`) the ledger is
pre-seeded with two mock records that did not come from the pipeline; the
second is marked valid yet carries `fraudScore = 0.1` (not below 0.1) and a
non-null `conversionType`, and the admin listing returns it — so the
pipeline's record-shape properties do not hold ledger-wide. -/
theorem c9_seeded_ledger :
    initialClicks ≠ [] ∧
    initialClicks.length = 2 ∧
    mockClick2 ∈ initialClicks ∧
    mockClick2.isValid = 1 ∧
    mockClick2.fraudScore = 1 / 10 ∧
    mockClick2.conversionType = some "lead" ∧
    ¬ (∀ r ∈ initialClicks, r.isValid = 1 → r.fraudScore < 1 / 10) ∧
    ¬ (∀ r ∈ initialClicks, r.conversionType = none) ∧
    list_clicks [] initialClicks =
      ListResponse.ok [mockClick2, mockClick1] 2 50 0 := by
  have hmem : mockClick2 ∈ initialClicks :=
    List.Mem.tail _ (List.Mem.head _)
  refine ⟨by decide, rfl, hmem, rfl, rfl, rfl, ?_, ?_, ?_⟩
  · intro hall
    have h2 := hall mockClick2 hmem rfl
    exact absurd h2 (lt_irrefl _)
  · intro hall
    have h2 := hall mockClick2 hmem
    exact Option.noConfusion h2
  · have hq : parseListQuery [] = .ok ⟨none, 50, 0, none, none, none⟩ := rfl
    have hfilter : filterClicks ⟨none, 50, 0, none, none, none⟩ initialClicks
        = [mockClick1, mockClick2] := rfl
    have hle : tsDescLE mockClick1 mockClick2 = false := by decide
    have hsort : [mockClick1, mockClick2].mergeSort tsDescLE
        = [mockClick2, mockClick1] := by
      rw [mergeSort_pair, if_neg (by rw [hle]; exact Bool.false_ne_true)]
    simp only [list_clicks, hq, hfilter, hsort]
    rfl

/-- Every value stored in a parsed query dict is non-empty. -/
def qsClean (d : List (String × List String)) : Prop :=
  ∀ g ∈ d, ∀ v ∈ g.2, v ≠ ""

theorem qsAddPair_clean (d : List (String × List String)) (k v : String)
    (hd : qsClean d) (hv : v ≠ "") : qsClean (qsAddPair d k v) := by
  unfold qsAddPair
  split
  · intro g hg w hw
    obtain ⟨p, hp, hpe⟩ := List.mem_map.mp hg
    by_cases hk : (p.1 == k) = true
    · rw [if_pos hk] at hpe
      subst hpe
      simp only [List.mem_append, List.mem_singleton] at hw
      rcases hw with hw | hw
      · exact hd p hp w hw
      · rw [hw]; exact hv
    · rw [if_neg hk] at hpe
      subst hpe
      exact hd p hp w hw
  · intro g hg w hw
    rcases List.mem_append.mp hg with hg | hg
    · exact hd g hg w hw
    · rw [List.mem_singleton] at hg
      subst hg
      simp only [List.mem_singleton] at hw
      rw [hw]; exact hv

theorem parse_qs_clean_aux (pairs : List (String × String))
    (d : List (String × List String)) (hd : qsClean d) :
    qsClean (pairs.foldl
      (fun d p => if p.2 = "" then d else qsAddPair d p.1 p.2) d) := by
  induction pairs generalizing d with
  | nil => exact hd
  | cons p ps ih =>
    simp only [List.foldl_cons]
    by_cases hp : p.2 = ""
    · rw [if_pos hp]
      exact ih d hd
    · rw [if_neg hp]
      exact ih _ (qsAddPair_clean d p.1 p.2 hd hp)

theorem parse_qs_clean (pairs : List (String × String)) :
    qsClean (parse_qs pairs) :=
  parse_qs_clean_aux pairs [] (fun g hg => absurd hg (List.not_mem_nil g))

theorem dictUpdate_clean_aux (e : List (String × List String)) :
    ∀ d, qsClean d → qsClean e →
      qsClean (e.foldl (fun acc p =>
        if acc.any (fun q => q.1 == p.1) then
          acc.map (fun q => if q.1 == p.1 then p else q)
        else acc ++ [p]) d) := by
  induction e with
  | nil =>
    intro d hd _
    exact hd
  | cons p ps ih =>
    intro d hd he
    simp only [List.foldl_cons]
    have hp : ∀ v ∈ p.2, v ≠ "" := he p (List.Mem.head _)
    have he' : qsClean ps := fun g hg => he g (List.Mem.tail _ hg)
    refine ih _ ?_ he'
    split
    · intro g hg w hw
      obtain ⟨q, hq, hqe⟩ := List.mem_map.mp hg
      by_cases hk : (q.1 == p.1) = true
      · rw [if_pos hk] at hqe
        subst hqe
        exact hp w hw
      · rw [if_neg hk] at hqe
        subst hqe
        exact hd q hq w hw
    · intro g hg w hw
      rcases List.mem_append.mp hg with hg | hg
      · exact hd g hg w hw
      · rw [List.mem_singleton] at hg
        subst hg
        exact hp w hw

theorem dictUpdate_clean (d e : List (String × List String))
    (hd : qsClean d) (he : qsClean e) : qsClean (dictUpdate d e) :=
  dictUpdate_clean_aux e d hd he

theorem urlencode_doseq_clean (d : List (String × List String))
    (hd : qsClean d) : ∀ kv ∈ urlencode_doseq d, kv.2 ≠ "" := by
  intro kv hkv
  unfold urlencode_doseq at hkv
  obtain ⟨l, hl, hkvl⟩ := List.mem_flatten.mp hkv
  obtain ⟨p, hp, hpe⟩ := List.mem_map.mp hl
  subst hpe
  obtain ⟨v, hv, hve⟩ := List.mem_map.mp hkvl
  subst hve
  exact hd p hp v hv

theorem mergeQueryParams_no_blank (destQuery inbound : List (String × String)) :
    ∀ kv ∈ mergeQueryParams destQuery inbound, kv.2 ≠ "" :=
  urlencode_doseq_clean _
    (dictUpdate_clean _ _ (parse_qs_clean destQuery) (parse_qs_clean inbound))

/-- C10: in redirect composition, inbound parameters with empty values are
dropped: no pair of the merged query has an empty value, and in particular
the location of every 302 redirect produced for a request with a non-empty
query string carries no empty-valued parameter. -/
theorem c10_blank_values_dropped :
    (∀ destQuery inbound : List (String × String),
      ∀ kv ∈ mergeQueryParams destQuery inbound, kv.2 ≠ "") ∧
    (∀ (args : List (String × String)) (ctx : ClickContext)
      (clicks : List ClickRecord) (st : Nat) (url : RedirectUrl),
      args ≠ [] →
      (click_handler args ctx clicks).1 =
        ClickResponse.redirectResponse st url →
      ∀ kv ∈ url.query, kv.2 ≠ "") := by
  refine ⟨fun d i => mergeQueryParams_no_blank d i, ?_⟩
  intro args ctx clicks st url hargs hresp kv hkv
  unfold click_handler at hresp
  by_cases hv : validateClickParams args = []
  · simp only [hv, ne_eq, not_true_eq_false, if_false] at hresp
    by_cases ht : (getArg args "test_mode" == some "1") = true
    · rw [if_pos ht] at hresp
      exact ClickResponse.noConfusion hresp
    · rw [if_neg ht] at hresp
      by_cases hs : ctx.schemathesisHeader = true
      · rw [if_pos hs] at hresp
        exact ClickResponse.noConfusion hresp
      · rw [if_neg hs] at hresp
        have hurl : url = composedRedirect args ctx
            (buildClickRecord args ctx).isValid := by
          cases hresp
          rfl
        subst hurl
        simp only [composedRedirect, if_neg hargs] at hkv
        exact mergeQueryParams_no_blank _ _ kv hkv
  · rw [if_pos hv] at hresp
    exact ClickResponse.noConfusion hresp

/-- C10 witness: a concrete redirect for a request with `sub1=` has no
empty-valued pair in its composed query. -/
theorem c10_blank_values_dropped_witness :
    ("click_id", "id0") ∈
      mergeQueryParams [("click_id", "id0")] [("cid", "5"), ("sub1", "")] ∧
    ("click_id", "id0").2 ≠ "" :=
  ⟨by decide,
   (c10_blank_values_dropped).1 [("click_id", "id0")]
     [("cid", "5"), ("sub1", "")] ("click_id", "id0") (by decide)⟩

theorem firstParamError_isSome (args : List (String × String)) (p : String)
    (hbad : p ∉ allowed_list_params ∨ (getArgList args p).length ≠ 1) :
    ∀ ks, p ∈ ks → firstParamError args ks ≠ none := by
  intro ks
  induction ks with
  | nil =>
    intro hp
    cases hp
  | cons k ks ih =>
    intro hp
    unfold firstParamError
    by_cases hk : (allowed_list_params.contains k) = true
    · rw [if_neg (not_not_intro hk)]
      by_cases hl : (getArgList args k).length ≠ 1
      · rw [if_pos hl]
        simp
      · rw [if_neg hl]
        have hpk : p ∈ ks := by
          cases hp with
          | head =>
            exfalso
            rcases hbad with hb | hb
            · exact hb (List.elem_iff.mp hk)
            · exact hb (by simpa using hl)
          | tail _ h => exact h
        exact ih hpk
    · rw [if_pos hk]
      simp

/-- If parameter validation of `/v1/clicks` cannot succeed, the response is
a 422 error. -/
theorem list_clicks_error_of_parse (args : List (String × String))
    (clicks : List ClickRecord) (h : ∀ q, parseListQuery args ≠ .ok q) :
    (list_clicks args clicks).isError422 = true := by
  unfold list_clicks
  cases hp : parseListQuery args with
  | error m => rfl
  | ok q => exact absurd hp (h q)

theorem parseLimit_ok (args : List (String × String)) (n : Int)
    (h : parseLimit args = .ok n) :
    1 ≤ n ∧ n ≤ 1000 ∧ (getArg args "limit" = none → n = 50) := by
  unfold parseLimit at h
  split at h
  · exact Except.noConfusion h
  · rename_i m heq
    split at h
    · exact Except.noConfusion h
    · rename_i hcond
      have hmn : m = n := by
        cases h
        rfl
      subst hmn
      push_neg at hcond
      refine ⟨hcond.1, hcond.2, ?_⟩
      intro hnone
      rw [hnone] at heq
      have h50 : pyInt (((none : Option String)).getD "50") = some 50 := by
        decide
      rw [h50] at heq
      cases heq
      rfl

theorem parseOffset_ok (args : List (String × String)) (n : Int)
    (h : parseOffset args = .ok n) : 0 ≤ n := by
  unfold parseOffset at h
  split at h
  · exact Except.noConfusion h
  · rename_i m heq
    split at h
    · exact Except.noConfusion h
    · rename_i hcond
      have hmn : m = n := by
        cases h
        rfl
      subst hmn
      exact Int.not_lt.mp hcond

theorem parseListQuery_ok_parts (args : List (String × String))
    (q : ListQuery) (h : parseListQuery args = .ok q) :
    firstParamError args (argKeys args) = none ∧
    (∃ c, parseCidFilter args = .ok c) ∧
    parseLimit args = .ok q.limit ∧
    parseOffset args = .ok q.offset ∧
    (∃ v, parseIsValidFilter args = .ok v) := by
  unfold parseListQuery at h
  split at h
  · exact Except.noConfusion h
  · rename_i hf
    split at h
    · exact Except.noConfusion h
    · rename_i c hc
      split at h
      · exact Except.noConfusion h
      · rename_i lim hl
        split at h
        · exact Except.noConfusion h
        · rename_i off ho
          split at h
          · exact Except.noConfusion h
          · rename_i ivf hiv
            cases h
            exact ⟨hf, ⟨c, hc⟩, hl, ho, ⟨ivf, hiv⟩⟩

/-- C8: parameter validation of the authorized `/v1/clicks` listing: an
unrecognized parameter, a parameter supplied more than once, a `limit`
outside [1,1000] (in particular 0 and 1001), a negative `offset`, or an
`is_valid` outside {0,1} each produce a 422 validation error; a successful
response has `limit` in [1,1000] (50 when absent) and `offset ≥ 0`; and a
rejected request carries no click data. -/
theorem c8_list_validation (args : List (String × String))
    (clicks : List ClickRecord) :
    ((∃ p ∈ argKeys args, p ∉ allowed_list_params) →
      (list_clicks args clicks).isError422 = true) ∧
    ((∃ p ∈ argKeys args, (getArgList args p).length ≠ 1) →
      (list_clicks args clicks).isError422 = true) ∧
    (∀ s n, getArg args "limit" = some s → pyInt s = some n →
      (n < 1 ∨ 1000 < n) → (list_clicks args clicks).isError422 = true) ∧
    (∀ s n, getArg args "offset" = some s → pyInt s = some n → n < 0 →
      (list_clicks args clicks).isError422 = true) ∧
    (∀ s n, getArg args "is_valid" = some s → pyInt s = some n →
      n ≠ 0 → n ≠ 1 → (list_clicks args clicks).isError422 = true) ∧
    (∀ page total lim off,
      list_clicks args clicks = ListResponse.ok page total lim off →
      1 ≤ lim ∧ lim ≤ 1000 ∧ 0 ≤ off ∧
        (getArg args "limit" = none → lim = 50)) ∧
    ((list_clicks args clicks).isError422 = true →
      (list_clicks args clicks).clickData = []) := by
  refine ⟨?_, ?_, ?_, ?_, ?_, ?_, ?_⟩
  · rintro ⟨p, hpm, hpbad⟩
    refine list_clicks_error_of_parse args clicks (fun q hq => ?_)
    exact firstParamError_isSome args p (Or.inl hpbad) _ hpm
      (parseListQuery_ok_parts args q hq).1
  · rintro ⟨p, hpm, hpbad⟩
    refine list_clicks_error_of_parse args clicks (fun q hq => ?_)
    exact firstParamError_isSome args p (Or.inr hpbad) _ hpm
      (parseListQuery_ok_parts args q hq).1
  · intro s n hs hp hor
    refine list_clicks_error_of_parse args clicks (fun q hq => ?_)
    have hl : parseLimit args = .error "Limit must be between 1 and 1000" := by
      unfold parseLimit
      rw [hs, Option.getD_some, hp]
      exact if_pos hor
    have := (parseListQuery_ok_parts args q hq).2.2.1
    rw [hl] at this
    exact Except.noConfusion this
  · intro s n hs hp hneg
    refine list_clicks_error_of_parse args clicks (fun q hq => ?_)
    have ho : parseOffset args = .error "Offset must be >= 0" := by
      unfold parseOffset
      rw [hs, Option.getD_some, hp]
      exact if_pos hneg
    have := (parseListQuery_ok_parts args q hq).2.2.2.1
    rw [ho] at this
    exact Except.noConfusion this
  · intro s n hs hp hn0 hn1
    refine list_clicks_error_of_parse args clicks (fun q hq => ?_)
    have hiv : parseIsValidFilter args = .error "is_valid must be 0 or 1" := by
      unfold parseIsValidFilter
      rw [hs]
      dsimp only
      rw [hp]
      exact if_neg (by tauto)
    obtain ⟨v, hv⟩ := (parseListQuery_ok_parts args q hq).2.2.2.2
    rw [hiv] at hv
    exact Except.noConfusion hv
  · intro page total lim off hres
    unfold list_clicks at hres
    split at hres
    · exact ListResponse.noConfusion hres
    · rename_i q hq
      have hparts := parseListQuery_ok_parts args q hq
      have hlim := parseLimit_ok args q.limit hparts.2.2.1
      have hoff := parseOffset_ok args q.offset hparts.2.2.2.1
      cases hres
      exact ⟨hlim.1, hlim.2.1, hoff, hlim.2.2⟩
  · intro he
    cases hres : list_clicks args clicks with
    | errorResponse st m => rfl
    | ok page total lim off =>
      rw [hres] at he
      simp [ListResponse.isError422] at he

/-- C8 witness: `limit=0` and `limit=1001` are rejected, as are an unknown
and a duplicated parameter, and a rejected request has no click data. -/
theorem c8_list_validation_witness :
    (list_clicks [("limit", "0")] initialClicks).isError422 = true ∧
    (list_clicks [("limit", "1001")] initialClicks).isError422 = true ∧
    (list_clicks [("bogus", "1")] initialClicks).isError422 = true ∧
    (list_clicks [("cid", "5"), ("cid", "6")] initialClicks).isError422
      = true ∧
    (list_clicks [("limit", "0")] initialClicks).clickData = [] :=
  ⟨(c8_list_validation [("limit", "0")] initialClicks).2.2.1 "0" 0 rfl
      (by decide) (Or.inl (by decide)),
   (c8_list_validation [("limit", "1001")] initialClicks).2.2.1 "1001" 1001
      rfl (by decide) (Or.inr (by decide)),
   (c8_list_validation [("bogus", "1")] initialClicks).1
      ⟨"bogus", by decide, by decide⟩,
   (c8_list_validation [("cid", "5"), ("cid", "6")] initialClicks).2.1
      ⟨"cid", by decide, by decide⟩,
   (c8_list_validation [("limit", "0")] initialClicks).2.2.2.2.2.2
      ((c8_list_validation [("limit", "0")] initialClicks).2.2.1 "0" 0 rfl
        (by decide) (Or.inl (by decide)))⟩

theorem tsDescLE_trans : ∀ (a b c : ClickRecord),
    tsDescLE a b → tsDescLE b c → tsDescLE a c := by
  intro a b c hab hbc
  simp only [tsDescLE, decide_eq_true_eq] at *
  omega

theorem tsDescLE_total : ∀ (a b : ClickRecord),
    tsDescLE a b || tsDescLE b a := by
  intro a b
  simp only [tsDescLE]
  rcases Int.le_total b.ts a.ts with h | h <;> simp [h]

theorem pagesJoin_take {α : Type} (s : List α) (L : Nat) :
    ∀ k, ((List.range k).map (fun i => (s.drop (i * L)).take L)).flatten
      = s.take (k * L) := by
  intro k
  induction k with
  | zero => simp
  | succ k ih =>
    rw [List.range_succ, List.map_append, List.flatten_append]
    simp only [List.map_cons, List.map_nil, List.flatten_cons,
      List.flatten_nil, List.append_nil]
    rw [ih, Nat.succ_mul, List.take_add]

/-- C6: the `/v1/clicks` read path over any ledger and any validated query:
the response page is the slice `[offset, offset+limit)` of the filtered set
sorted by timestamp descending, `total` is the filtered-set size before
pagination, the sort is a permutation, is time-descending, and is stable
(every time-descending sublist of the filtered set, in particular every
tied pair in insertion order, survives into the sorted list), an offset at
or beyond the set yields an empty page, and the pages at offsets
0, L, 2L, ... concatenate to exactly the sorted filtered set — a partition
with no duplicates and no gaps. -/
theorem c6_list_read_semantics (q : ListQuery) (clicks : List ClickRecord)
    (h1 : 1 ≤ q.limit) (h2 : q.limit ≤ 1000) (h3 : 0 ≤ q.offset)
    (args : List (String × String)) (hq : parseListQuery args = .ok q) :
    list_clicks args clicks =
      ListResponse.ok
        ((((filterClicks q clicks).mergeSort tsDescLE).drop
          q.offset.toNat).take q.limit.toNat)
        (filterClicks q clicks).length q.limit q.offset ∧
    ((filterClicks q clicks).mergeSort tsDescLE).Perm
      (filterClicks q clicks) ∧
    ((filterClicks q clicks).mergeSort tsDescLE).Pairwise
      (fun a b => b.ts ≤ a.ts) ∧
    (∀ c : List ClickRecord, List.Sublist c (filterClicks q clicks) →
      c.Pairwise (fun a b => b.ts ≤ a.ts) →
      List.Sublist c ((filterClicks q clicks).mergeSort tsDescLE)) ∧
    ((filterClicks q clicks).length ≤ q.offset.toNat →
      (((filterClicks q clicks).mergeSort tsDescLE).drop
        q.offset.toNat).take q.limit.toNat = []) ∧
    (∀ k : Nat, (filterClicks q clicks).length ≤ k * q.limit.toNat →
      ((List.range k).map (fun i =>
        (((filterClicks q clicks).mergeSort tsDescLE).drop
          (i * q.limit.toNat)).take q.limit.toNat)).flatten
        = (filterClicks q clicks).mergeSort tsDescLE) := by
  refine ⟨?_, List.mergeSort_perm _ tsDescLE, ?_, ?_, ?_, ?_⟩
  · unfold list_clicks
    rw [hq]
    dsimp only
    rw [List.length_mergeSort]
  · have hs := List.sorted_mergeSort tsDescLE_trans tsDescLE_total
      (filterClicks q clicks)
    exact hs.imp (fun hab => by simpa [tsDescLE] using hab)
  · intro c hsub hpw
    refine List.sublist_mergeSort tsDescLE_trans tsDescLE_total ?_ hsub
    exact hpw.imp (fun hab => by simpa [tsDescLE] using hab)
  · intro h
    rw [List.drop_eq_nil_of_le, List.take_nil]
    rw [List.length_mergeSort]
    exact h
  · intro k hk
    rw [pagesJoin_take]
    apply List.take_of_length_le
    rw [List.length_mergeSort]
    exact hk

/-- C6 witness: the unfiltered default query (limit 50, offset 0) over the
seeded ledger. -/
theorem c6_list_read_semantics_witness :
    list_clicks [] initialClicks =
      ListResponse.ok
        ((((filterClicks ⟨none, 50, 0, none, none, none⟩
            initialClicks).mergeSort tsDescLE).drop
          (Int.toNat 0)).take (Int.toNat 50))
        (filterClicks ⟨none, 50, 0, none, none, none⟩ initialClicks).length
        50 0 ∧
    ((filterClicks ⟨none, 50, 0, none, none, none⟩
        initialClicks).mergeSort tsDescLE).Perm
      (filterClicks ⟨none, 50, 0, none, none, none⟩ initialClicks) := by
  have h := c6_list_read_semantics ⟨none, 50, 0, none, none, none⟩
    initialClicks (by decide) (by decide) (by decide) [] rfl
  exact ⟨h.1, h.2.1⟩
